import Mathlib

/-
  Verification development for PyImageFormatConverter (src/main.py).

  Shallow embedding: the pure control flow of `check_config`, `convert` and the
  `__main__` block is translated into Lean functions. Interactions with the
  outside world (filesystem tests, PIL `Image.open` / `Image.save` /
  `Image.registered_extensions`, `Path.absolute`, `glob`) are modelled by an
  oracle structure `Env` fixed for a run; `tqdm.write` output and codec `save`
  calls are recorded in an event trace. A Python exception raised by an oracle
  call is an explicit `PyExc` value; `convert` returns the trace together with
  `raised = some e` when an exception escapes its boundary and `raised = none`
  when it returns normally.
-/

namespace PyImgConv

/-- Python exceptions relevant to `convert`: `OSError` (first handler) versus
any other `Exception` (second handler). The payload is `str(ex)`. -/
inductive PyExc where
  | osError (msg : String)
  | otherError (msg : String)
deriving DecidableEq, Repr

/-- Model of a PIL image in memory: where it was opened from and its current
pixel mode (`convert` in PIL returns a copy in the requested mode). -/
structure PILImage where
  source : String
  mode : String
deriving DecidableEq, Repr

/-- PIL `image.convert(m)`: same picture, pixel mode replaced by `m`. -/
def PILImage.convertMode (i : PILImage) (m : String) : PILImage :=
  { i with mode := m }

/-- The `Config` dataclass of src/main.py (fields populated from the parsed
argument map). Paths are modelled as strings. -/
structure Config where
  NB_WORKERS : Int
  DESTINATION_FOLDER : String
  DESTINATION_FILE_TYPE : String
  SOURCE_FOLDER : String
  SOURCE_FILE_TYPE : String
  IS_RECURSIVE : Bool
  IMAGE_QUALITY : Nat
  OPTIMIZE : Bool
  PROGRESSIVE : Bool
deriving DecidableEq, Repr

/- ---------- Path helpers (pathlib semantics used by the source) ---------- -/

/-- Scan characters left to right keeping the component after the last slash:
the accumulator is reset at every path separator. -/
def lastComponentAux (acc : List Char) : List Char → List Char
  | [] => acc
  | c :: rest =>
      if c = '/' then lastComponentAux [] rest
      else lastComponentAux (acc ++ [c]) rest

/-- Index of the last occurrence of `c` in `cs`, if any. -/
def lastIdxOf (c : Char) (cs : List Char) : Option Nat :=
  ((List.range cs.length).filter (fun i => cs.get? i == some c)).getLast?

/-- CPython `PurePath` rule for splitting a file name into stem and suffix:
the split happens at the last dot only when that dot is neither the first nor
the last character of the name; otherwise the whole name is the stem. -/
def nameStem (name : List Char) : List Char :=
  match lastIdxOf '.' name with
  | none => name
  | some i => if 0 < i ∧ i + 1 < name.length then name.take i else name

/-- Companion of `nameStem`: the suffix (with its dot) or empty. -/
def nameSuffix (name : List Char) : List Char :=
  match lastIdxOf '.' name with
  | none => []
  | some i => if 0 < i ∧ i + 1 < name.length then name.drop i else []

/-- Python `Path(p).stem` for POSIX-style path strings. -/
def pathStem (p : String) : String :=
  ⟨nameStem (lastComponentAux [] p.data)⟩

/-- Python `Path(p).suffix` for POSIX-style path strings. -/
def pathSuffix (p : String) : String :=
  ⟨nameSuffix (lastComponentAux [] p.data)⟩

/- ---------- Extension normalization (check_config lines 38-41) ---------- -/

/-- Python `s.startswith('.')`: the first character is a dot. -/
def startsWithDot (s : String) : Bool :=
  s.data.head? == some '.'

/-- The normalization applied to both extension fields at the top of
`check_config`: prepend a dot exactly when the string does not start with
one. -/
def normalizeExt (s : String) : String :=
  if startsWithDot s then s else "." ++ s

/- ---------- Substring test (line 95: if RGBA in str of ex) ---------- -/

/-- Boolean list-infix test, used to model the Python `in` substring check. -/
def isSubstringAux (pat : List Char) : List Char → Bool
  | [] => pat.isEmpty
  | c :: rest => pat.isPrefixOf (c :: rest) || isSubstringAux pat rest

/-- Python substring test: the token RGBA occurs in s. -/
def containsRGBA (s : String) : Bool :=
  isSubstringAux "RGBA".data s.data

/- ---------- Run environment (the oracles around the pure core) ---------- -/

/-- One run of the program, as the pure core observes it: filesystem
predicates, PIL codec behavior, and the extension registry. `saveResult`
gives, per source file, the outcome of the n-th `image.save` call the task
makes (attempt 0 is the first save, attempt 1 the retry). -/
structure Env where
  absolutize : String → String
  isDir : String → Bool
  pathExists : String → Bool
  glob : String → Bool → List String
  openImage : String → Except PyExc PILImage
  destExists : String → Bool
  saveResult : String → Nat → Except PyExc Unit
  registeredExtensions : List (String × String)

/-- PIL `Image.registered_extensions().get(ext)`. -/
def registeredGet (env : Env) (ext : String) : Option String :=
  env.registeredExtensions.lookup ext

/-- Membership in `Image.registered_extensions().keys()`. -/
def registeredKeys (env : Env) : List String :=
  env.registeredExtensions.map Prod.fst

/- ---------- Conversion task (convert, lines 82-103) ---------- -/

/-- Line 83: the destination path, built by f-string concatenation from the
absolutized destination folder, the stem of the source file, and the
configured destination extension. -/
def destPath (env : Env) (config : Config) (sourceFilePath : String) : String :=
  env.absolutize config.DESTINATION_FOLDER ++ "/" ++ pathStem sourceFilePath
    ++ config.DESTINATION_FILE_TYPE

/-- Observable actions of one conversion task: a `tqdm.write` line, or an
`image.save` call with its image, target and encode options. -/
inductive Event where
  | write (line : String)
  | save (img : PILImage) (dest : String) (fmt : Option String)
         (quality : Nat) (optimize : Bool) (progressive : Bool)
deriving DecidableEq, Repr

/-- What one task did: its trace and the exception escaping its boundary, if
any (`none` means the Python function returned normally). -/
structure ConvertResult where
  events : List Event
  raised : Option PyExc
deriving DecidableEq, Repr

/-- The `convert` task, translated statement by statement:
line 83 computes the destination path; line 84 opens the image OUTSIDE the
try block, so an open failure escapes; line 86 looks up the format name;
lines 87-88 emit the already-exists warning; lines 90-93 are the first save;
the `except OSError` handler (94-101) warns and re-modes the image only when
the message contains RGBA but ALWAYS retries the save, unprotected, so a
retry failure escapes; the `except Exception` handler (102-103) writes an
error line and returns. -/
def convert (env : Env) (sourceFilePath : String) (config : Config) :
    ConvertResult :=
  let dest_path := destPath env config sourceFilePath
  match env.openImage sourceFilePath with
  | .error e => { events := [], raised := some e }
  | .ok image =>
    let extension_name := registeredGet env (pathSuffix dest_path)
    let preEvents :=
      if env.destExists dest_path then
        [Event.write ("Warning: file " ++ dest_path ++ " already exists")]
      else []
    let saveEvt := fun (img : PILImage) =>
      Event.save img dest_path extension_name config.IMAGE_QUALITY
        config.OPTIMIZE config.PROGRESSIVE
    match env.saveResult sourceFilePath 0 with
    | .ok _ => { events := preEvents ++ [saveEvt image], raised := none }
    | .error ex =>
      match ex with
      | .osError m =>
        let step :=
          if containsRGBA m then
            ([Event.write ("Warning: file " ++ sourceFilePath
                ++ " has a transparency layer, message: " ++ m)],
             image.convertMode "RGB")
          else ([], image)
        match env.saveResult sourceFilePath 1 with
        | .ok _ =>
            { events := preEvents ++ [saveEvt image] ++ step.1
                ++ [saveEvt step.2],
              raised := none }
        | .error ex2 =>
            { events := preEvents ++ [saveEvt image] ++ step.1
                ++ [saveEvt step.2],
              raised := some ex2 }
      | .otherError m =>
        { events := preEvents ++ [saveEvt image]
            ++ [Event.write ("Error: file: " ++ sourceFilePath
                ++ ", message: " ++ m)],
          raised := none }

/-- Is this event a codec `save` call? -/
def Event.isSave : Event → Bool
  | .save .. => true
  | .write _ => false

/-- The save attempts a task made, in order. -/
def saveEvents (r : ConvertResult) : List Event :=
  r.events.filter Event.isSave

/- ---------- check_config (lines 37-55) ---------- -/

/-- Model of `check_config`, translated check by check. Python mutates the config
object in place; here the normalized config is returned on success, which is
what `__main__` continues with. Each `raise SystemExit(msg)` becomes
`Except.error msg` (a `SystemExit` carrying a string exits with status 1). -/
def check_config (env : Env) (config : Config) : Except String Config :=
  let config1 :=
    { config with SOURCE_FILE_TYPE := normalizeExt config.SOURCE_FILE_TYPE }
  let config2 :=
    { config1 with
      DESTINATION_FILE_TYPE := normalizeExt config1.DESTINATION_FILE_TYPE }
  if env.isDir config2.SOURCE_FOLDER = false then
    .error ("Error: Source path does not lead to a directory")
  else if env.isDir config2.DESTINATION_FOLDER = false then
    .error ("Error: Destination path does not lead to a directory")
  else if env.pathExists config2.SOURCE_FOLDER = false then
    .error ("Error: Source folder does not exist")
  else if env.pathExists config2.DESTINATION_FOLDER = false then
    .error ("Error: Destination folder does not exist")
  else if env.glob (config2.SOURCE_FOLDER ++ "/**/*" ++ config2.SOURCE_FILE_TYPE)
      config2.IS_RECURSIVE = [] then
    .error ("Error: Source folder does not contain any file of type "
      ++ config2.SOURCE_FILE_TYPE)
  else if (registeredKeys env).contains config2.DESTINATION_FILE_TYPE = false then
    .error ("Error: Desired conversion format is not supported")
  else if (registeredKeys env).contains config2.SOURCE_FILE_TYPE = false then
    .error ("Error: Source image format is not supported")
  else .ok config2

/- ---------- __main__ (lines 106-114) ---------- -/

/-- File discovery of line 109: glob over the absolutized source folder with
the (already normalized) source extension. -/
def allFiles (env : Env) (config : Config) : List String :=
  env.glob (env.absolutize config.SOURCE_FOLDER ++ "/**/*"
    ++ config.SOURCE_FILE_TYPE) config.IS_RECURSIVE

/-- Outcome of the whole process: exit status, the per-task results the
futures hold, and whether the final Done line was printed. -/
structure MainResult where
  exitCode : Nat
  taskResults : List ConvertResult
  doneLine : Bool
deriving Repr

/-- The `__main__` block. A `check_config` failure is a `SystemExit` with a
message: exit status 1, nothing dispatched. Otherwise every discovered file
is converted; `list(tqdm(as_completed(futures), ...))` iterates the futures
WITHOUT calling `result()`, so an exception stored in a future (a task whose
`convert` call raised) is never re-raised: it stays inside its
`ConvertResult` and the process prints Done and exits 0 regardless. -/
def mainModel (env : Env) (config0 : Config) : MainResult :=
  match check_config env config0 with
  | .error _ => { exitCode := 1, taskResults := [], doneLine := false }
  | .ok config =>
    let files := allFiles env config
    let futures := files.map (fun f => convert env f config)
    { exitCode := 0, taskResults := futures, doneLine := true }


/- ---------- Argument parser (configure_argument_parser, lines 58-75) ---------- -/

/-- Argparse action kinds used by the source parser: an int-typed option that
consumes the following token, a store-true flag, and a store-const flag that
consumes nothing and stores a fixed constant. -/
inductive ArgAction where
  | storeIntValue
  | storeTrue
  | storeConst (c : Nat)
deriving DecidableEq, Repr

/-- Does an occurrence of the option consume the following token as its
value? Only a value-typed action does; store-true and store-const take no
value (documented argparse behavior). -/
def consumesValue : ArgAction → Bool
  | .storeIntValue => true
  | .storeTrue => false
  | .storeConst _ => false

/-- The option table registered in `configure_argument_parser`, one entry per
`add_argument` call for an optional argument (lines 64-73). Note line 70:
quality is registered with action store_const, const 80, not with type int. -/
def optionActions : List (String × ArgAction) :=
  [("--nb-workers", ArgAction.storeIntValue),
   ("--optimize", ArgAction.storeTrue),
   ("--progressive", ArgAction.storeTrue),
   ("--quality", ArgAction.storeConst 80),
   ("--recursive", ArgAction.storeTrue)]

/-- The optional fields of the parsed argument map. -/
structure ParsedOptions where
  nb_workers : Int
  optimize : Bool
  progressive : Bool
  quality : Nat
  recursive : Bool
deriving DecidableEq, Repr

/-- Defaults from lines 64-73: worker count min(32, cpu_count + 4) where a
missing cpu_count already collapsed to 1, flags default true, quality 80. -/
def defaultOptions (cpuCount : Nat) : ParsedOptions :=
  { nb_workers := min 32 (Int.ofNat cpuCount + 4),
    optimize := true,
    progressive := true,
    quality := 80,
    recursive := true }

/-- Option-token parsing for the registered table, following argparse
dispatch: an int-typed option consumes the next token and converts it; a
store-true option sets its flag; the store-const quality option consumes no
token and stores the constant 80; any other token is not an optional
argument of the table (the real parser would match it against the four
positionals, which never populate quality, and reject the surplus). -/
def parseOptionTokens : List String → ParsedOptions → Except String ParsedOptions
  | [], acc => .ok acc
  | t :: rest, acc =>
    if t = "--nb-workers" then
      match rest with
      | [] => .error ("argument --nb-workers: expected one argument")
      | v :: rest2 =>
        match v.toInt? with
        | some n => parseOptionTokens rest2 { acc with nb_workers := n }
        | none => .error ("argument --nb-workers: invalid int value: " ++ v)
    else if t = "--optimize" then
      parseOptionTokens rest { acc with optimize := true }
    else if t = "--progressive" then
      parseOptionTokens rest { acc with progressive := true }
    else if t = "--quality" then
      parseOptionTokens rest { acc with quality := 80 }
    else if t = "--recursive" then
      parseOptionTokens rest { acc with recursive := true }
    else .error ("unrecognized arguments: " ++ t)

/- ---------- Concrete run fixtures used by witnesses and counterexamples ---------- -/

/-- Baseline concrete environment: every path is a directory and exists, one
source file is discovered, opening yields an RGBA image, no destination
collision, every save succeeds, and the registry knows jpg and png. -/
def envBase : Env :=
  { absolutize := fun s => "/abs/" ++ s,
    isDir := fun _ => true,
    pathExists := fun _ => true,
    glob := fun _ _ => ["in/a.png"],
    openImage := fun s => Except.ok ⟨s, "RGBA"⟩,
    destExists := fun _ => false,
    saveResult := fun _ _ => Except.ok (),
    registeredExtensions := [(".jpg", "JPEG"), (".png", "PNG")] }

/-- Baseline environment with a pre-existing destination file. -/
def envA : Env :=
  { envBase with destExists := fun _ => true }

/-- Concrete validated configuration used throughout the witnesses. -/
def cfgA : Config :=
  { NB_WORKERS := 4,
    DESTINATION_FOLDER := "out",
    DESTINATION_FILE_TYPE := ".jpg",
    SOURCE_FOLDER := "in",
    SOURCE_FILE_TYPE := ".png",
    IS_RECURSIVE := true,
    IMAGE_QUALITY := 80,
    OPTIMIZE := true,
    PROGRESSIVE := true }

/-- Configuration asking for an unsupported destination format. -/
def cfgXyz : Config :=
  { cfgA with DESTINATION_FILE_TYPE := ".xyz" }

/-- Environment where opening the image raises an OSError. -/
def envOpenFail : Env :=
  { envBase with openImage := fun _ => Except.error (PyExc.osError "open failed") }

/-- Environment where the first save raises an OSError whose message has no
RGBA token, and the second save succeeds. -/
def envC2 : Env :=
  { envBase with
    saveResult := fun _ n =>
      if n = 0 then Except.error (PyExc.osError "disk full") else Except.ok () }

/-- Environment where the first save raises a non-OSError exception. -/
def envC2w : Env :=
  { envBase with
    saveResult := fun _ n =>
      if n = 0 then Except.error (PyExc.otherError "boom") else Except.ok () }

/-- Environment where the first save raises a transparency OSError and the
retry raises a second, different OSError. -/
def envC3 : Env :=
  { envBase with
    saveResult := fun _ n =>
      if n = 0 then Except.error (PyExc.osError "cannot write mode RGBA as JPEG")
      else Except.error (PyExc.osError "second failure") }

/-- Environment where the first save raises a transparency OSError and the
retry succeeds. -/
def envC3w : Env :=
  { envBase with
    saveResult := fun _ n =>
      if n = 0 then Except.error (PyExc.osError "cannot write mode RGBA as JPEG")
      else Except.ok () }

/-- Environment passing validation in which every task raises on open. -/
def envCrash : Env :=
  { envA with openImage := fun _ => Except.error (PyExc.osError "boom") }

/- ---------- Helper lemmas ---------- -/

/-- Processing a concatenation of character lists composes the scans. -/
theorem lastComponentAux_append (l1 l2 acc : List Char) :
    lastComponentAux acc (l1 ++ l2) = lastComponentAux (lastComponentAux acc l1) l2 := by
  induction l1 generalizing acc with
  | nil => rfl
  | cons c rest ih =>
      simp only [List.cons_append, lastComponentAux]
      by_cases h : c = '/'
      · simp [h, ih]
      · simp [h, ih]

/-- Everything before an explicit separator is discarded by the scan. -/
theorem lastComponentAux_after_slash (d n : List Char) (acc : List Char) :
    lastComponentAux acc (d ++ '/' :: n) = lastComponentAux [] n := by
  rw [lastComponentAux_append]
  simp [lastComponentAux]

/-- The stem of a path does not depend on the directory prefix before an
explicit separator. -/
theorem pathStem_append_slash (d n : String) :
    pathStem (d ++ "/" ++ n) = pathStem n := by
  unfold pathStem
  have h : (d ++ "/" ++ n).data = d.data ++ '/' :: n.data := by
    simp [String.data_append]
  rw [h, lastComponentAux_after_slash]

/-- Prepending a dot yields a string that starts with a dot. -/
theorem startsWithDot_dot_append (s : String) :
    startsWithDot ("." ++ s) = true := by
  have h : ("." ++ s).data = '.' :: s.data := by
    have hd : (".").data = ['.'] := rfl
    simp [String.data_append, hd]
  simp [startsWithDot, h]

/-- Normalization of extensions is idempotent. -/
theorem normalizeExt_idem (s : String) :
    normalizeExt (normalizeExt s) = normalizeExt s := by
  unfold normalizeExt
  by_cases h : startsWithDot s = true
  · simp [h]
  · simp [h, startsWithDot_dot_append]

/-- Every save call a task makes targets the derived destination path, the
format looked up for its suffix, and the configured quality, optimize and
progressive options. -/
theorem convert_save_mem (env : Env) (src : String) (cfg : Config)
    (img : PILImage) (d : String) (f : Option String) (q : Nat) (o p : Bool)
    (hmem : Event.save img d f q o p ∈ (convert env src cfg).events) :
    d = destPath env cfg src ∧
    f = registeredGet env (pathSuffix (destPath env cfg src)) ∧
    q = cfg.IMAGE_QUALITY ∧ o = cfg.OPTIMIZE ∧ p = cfg.PROGRESSIVE := by
  by_cases hd : env.destExists (destPath env cfg src) = true
  all_goals
    cases h1 : env.openImage src with
    | error e => simp [convert, h1] at hmem
    | ok img1 =>
      cases h2 : env.saveResult src 0 with
      | ok u => simp [convert, h1, h2, hd] at hmem; tauto
      | error ex =>
        cases ex with
        | osError m =>
            by_cases hr : containsRGBA m = true
            all_goals
              cases h3 : env.saveResult src 1 with
              | ok u => simp [convert, h1, h2, h3, hd, hr] at hmem; tauto
              | error e2 => simp [convert, h1, h2, h3, hd, hr] at hmem; tauto
        | otherError m => simp [convert, h1, h2, hd] at hmem; tauto

/-- On success, `check_config` returns the input configuration with both
extensions normalized, and both normalized extensions are registered. -/
theorem check_config_ok_shape (env : Env) (cfg cfg2 : Config)
    (h : check_config env cfg = Except.ok cfg2) :
    cfg2 = { cfg with
      SOURCE_FILE_TYPE := normalizeExt cfg.SOURCE_FILE_TYPE,
      DESTINATION_FILE_TYPE := normalizeExt cfg.DESTINATION_FILE_TYPE } ∧
    (registeredKeys env).contains (normalizeExt cfg.DESTINATION_FILE_TYPE) = true ∧
    (registeredKeys env).contains (normalizeExt cfg.SOURCE_FILE_TYPE) = true := by
  simp only [check_config] at h
  repeat' split at h
  all_goals simp_all

/-- Quality is never assigned anything but the constant 80 during option
parsing, whatever the token list (fuel-indexed induction). -/
theorem parseOptionTokens_quality_fuel (k : Nat) :
    ∀ (toks : List String), toks.length ≤ k →
    ∀ (acc r : ParsedOptions), parseOptionTokens toks acc = Except.ok r →
    r.quality = acc.quality ∨ r.quality = 80 := by
  induction k with
  | zero =>
      intro toks hlen acc r h
      have h0 : toks = [] := List.eq_nil_of_length_eq_zero (Nat.le_zero.mp hlen)
      subst h0
      simp [parseOptionTokens] at h
      simp [← h]
  | succ k ih =>
      intro toks hlen acc r h
      cases toks with
      | nil =>
          simp [parseOptionTokens] at h
          simp [← h]
      | cons t rest =>
        have hrest : rest.length ≤ k := by simp at hlen; omega
        by_cases h1 : t = "--nb-workers"
        · subst h1
          cases rest with
          | nil =>
              rw [parseOptionTokens.eq_def] at h
              simp at h
          | cons v rest2 =>
              have hrest2 : rest2.length ≤ k := by simp at hlen; omega
              cases hv : v.toInt? with
              | some n =>
                  rw [parseOptionTokens.eq_def] at h
                  simp [hv] at h
                  have := ih rest2 hrest2 _ r h
                  rcases this with h' | h' <;> simp [h']
              | none =>
                  rw [parseOptionTokens.eq_def] at h
                  simp [hv] at h
        · by_cases h2 : t = "--optimize"
          · subst h2
            rw [parseOptionTokens.eq_def] at h
            simp at h
            have := ih rest hrest _ r h
            rcases this with h' | h' <;> simp [h']
          · by_cases h3 : t = "--progressive"
            · subst h3
              rw [parseOptionTokens.eq_def] at h
              simp at h
              have := ih rest hrest _ r h
              rcases this with h' | h' <;> simp [h']
            · by_cases h4 : t = "--quality"
              · subst h4
                rw [parseOptionTokens.eq_def] at h
                simp at h
                have := ih rest hrest _ r h
                rcases this with h' | h' <;> simp [h']
              · by_cases h5 : t = "--recursive"
                · subst h5
                  rw [parseOptionTokens.eq_def] at h
                  simp at h
                  have := ih rest hrest _ r h
                  rcases this with h' | h' <;> simp [h']
                · rw [parseOptionTokens.eq_def] at h
                  simp [h1, h2, h3, h4, h5] at h

/-- Quality of any successful parse is the initial quality or 80. -/
theorem parseOptionTokens_quality (toks : List String) (acc r : ParsedOptions)
    (h : parseOptionTokens toks acc = Except.ok r) :
    r.quality = acc.quality ∨ r.quality = 80 :=
  parseOptionTokens_quality_fuel toks.length toks (Nat.le_refl _) acc r h

/- ---------- Claim theorems ---------- -/

/-- C1 counterexample: the claim says every failure during open is caught
inside the task, but `Image.open` sits outside the try block (line 84), so
an OSError raised while opening escapes the `convert` boundary: in an
environment whose open raises, the task propagates the exception. -/
theorem c1_open_failure_escapes :
    (convert envOpenFail "in/a.png" cfgA).raised =
      some (PyExc.osError "open failed") := by decide

/-- C1 amended: exact characterization of which exceptions escape the
conversion task boundary. An exception escapes if and only if it was raised
by `Image.open` (which is outside the try block), or by the unprotected
retry save inside the OSError handler after a first save failed with an
OSError. Every other failure path, in particular any failure of the first
save attempt, is caught inside the task. -/
theorem c1_exception_boundary_characterization (env : Env) (src : String)
    (cfg : Config) (e : PyExc) :
    (convert env src cfg).raised = some e ↔
      env.openImage src = Except.error e ∨
      (∃ img m, env.openImage src = Except.ok img ∧
        env.saveResult src 0 = Except.error (PyExc.osError m) ∧
        env.saveResult src 1 = Except.error e) := by
  cases h1 : env.openImage src with
  | error e0 => simp [convert, h1]
  | ok img1 =>
    cases h2 : env.saveResult src 0 with
    | ok u => simp [convert, h1, h2]
    | error ex =>
      cases ex with
      | osError m =>
          cases h3 : env.saveResult src 1 with
          | ok u => simp [convert, h1, h2, h3]
          | error e2 => simp [convert, h1, h2, h3]
      | otherError m => simp [convert, h1, h2]

/-- C2 counterexample: the claim says a save failure without the RGBA token
is never retried and becomes a Failure report with exactly one save attempt;
but the retry save at line 98 is outside the RGBA conditional, so an OSError
without the token is retried: two save attempts happen, no error line is
written, and the task returns normally when the retry succeeds. -/
theorem c2_oserror_retried_counterexample :
    containsRGBA "disk full" = false ∧
    (saveEvents (convert envC2 "in/a.png" cfgA)).length = 2 ∧
    (convert envC2 "in/a.png" cfgA).events.filter
      (fun e => !(Event.isSave e)) = [] ∧
    (convert envC2 "in/a.png" cfgA).raised = none := by decide

/-- C2 amended: a first-save failure that is not an OSError is never retried
and is converted into a Failure report carrying the source path and the
error text, with exactly one save attempt; a first-save failure that is an
OSError whose message lacks the RGBA token is nevertheless retried exactly
once, with the image NOT converted (same image on both attempts) and with
the only written line being the optional already-exists warning. -/
theorem c2_non_transparency_failure (env : Env) (src : String) (cfg : Config)
    (img : PILImage) (hopen : env.openImage src = Except.ok img) :
    (∀ m, env.saveResult src 0 = Except.error (PyExc.otherError m) →
      (saveEvents (convert env src cfg)).length = 1 ∧
      (convert env src cfg).events.getLast? =
        some (Event.write ("Error: file: " ++ src ++ ", message: " ++ m)) ∧
      (convert env src cfg).raised = none) ∧
    (∀ m, env.saveResult src 0 = Except.error (PyExc.osError m) →
      containsRGBA m = false →
      saveEvents (convert env src cfg) =
        [Event.save img (destPath env cfg src)
           (registeredGet env (pathSuffix (destPath env cfg src)))
           cfg.IMAGE_QUALITY cfg.OPTIMIZE cfg.PROGRESSIVE,
         Event.save img (destPath env cfg src)
           (registeredGet env (pathSuffix (destPath env cfg src)))
           cfg.IMAGE_QUALITY cfg.OPTIMIZE cfg.PROGRESSIVE] ∧
      (convert env src cfg).events.filter (fun e => !(Event.isSave e)) =
        (if env.destExists (destPath env cfg src) then
          [Event.write ("Warning: file " ++ destPath env cfg src
            ++ " already exists")]
         else [])) := by
  constructor
  · intro m hm
    by_cases hd : env.destExists (destPath env cfg src) = true
    · refine ⟨?_, ?_, ?_⟩ <;>
        simp [convert, hopen, hm, hd, saveEvents, Event.isSave, List.filter]
    · refine ⟨?_, ?_, ?_⟩ <;>
        simp [convert, hopen, hm, hd, saveEvents, Event.isSave, List.filter]
  · intro m hm hr
    by_cases hd : env.destExists (destPath env cfg src) = true
    all_goals
      cases h3 : env.saveResult src 1 with
      | ok u =>
          refine ⟨?_, ?_⟩ <;>
            simp [convert, hopen, hm, hr, hd, h3, saveEvents, Event.isSave,
              List.filter]
      | error e2 =>
          refine ⟨?_, ?_⟩ <;>
            simp [convert, hopen, hm, hr, hd, h3, saveEvents, Event.isSave,
              List.filter]

/-- C2 witness: concrete non-OSError save failure, one save attempt, an
error line carrying path and message, normal return. -/
theorem c2_non_transparency_failure_witness :
    (saveEvents (convert envC2w "in/a.png" cfgA)).length = 1 ∧
    (convert envC2w "in/a.png" cfgA).events.getLast? =
      some (Event.write ("Error: file: " ++ "in/a.png" ++ ", message: "
        ++ "boom")) ∧
    (convert envC2w "in/a.png" cfgA).raised = none :=
  (c2_non_transparency_failure envC2w "in/a.png" cfgA
    ⟨"in/a.png", "RGBA"⟩ rfl).1 "boom" rfl

/-- C3 counterexample: the claim says that when the single retry after a
transparency failure also fails, the failure is surfaced as a Failure
outcome; but the retry save (lines 98-101) is not protected by any handler,
so its exception escapes the task instead: no error line is written and the
second OSError propagates. -/
theorem c3_retry_failure_escapes :
    (convert envC3 "in/a.png" cfgA).raised =
      some (PyExc.osError "second failure") ∧
    (convert envC3 "in/a.png" cfgA).events.filter
      (fun e => !(Event.isSave e)) =
      [Event.write ("Warning: file " ++ "in/a.png"
        ++ " has a transparency layer, message: "
        ++ "cannot write mode RGBA as JPEG")] := by decide

/-- C3 amended: when the first save fails with an OSError whose message
contains the RGBA token, the task writes the transparency warning, converts
the in-memory image to RGB, and retries the save exactly once with the same
quality, optimize and progressive options (exactly two save attempts in
total); if the retry succeeds the task returns normally, and if the retry
also fails the second exception escapes the task boundary (it is not
converted into a Failure report) and no further retry occurs. -/
theorem c3_transparency_fallback (env : Env) (src : String) (cfg : Config)
    (img : PILImage) (m : String)
    (hopen : env.openImage src = Except.ok img)
    (hsave : env.saveResult src 0 = Except.error (PyExc.osError m))
    (hrgba : containsRGBA m = true) :
    (convert env src cfg).events =
      (if env.destExists (destPath env cfg src) then
        [Event.write ("Warning: file " ++ destPath env cfg src
          ++ " already exists")]
       else [])
      ++ [Event.save img (destPath env cfg src)
            (registeredGet env (pathSuffix (destPath env cfg src)))
            cfg.IMAGE_QUALITY cfg.OPTIMIZE cfg.PROGRESSIVE,
          Event.write ("Warning: file " ++ src
            ++ " has a transparency layer, message: " ++ m),
          Event.save (img.convertMode "RGB") (destPath env cfg src)
            (registeredGet env (pathSuffix (destPath env cfg src)))
            cfg.IMAGE_QUALITY cfg.OPTIMIZE cfg.PROGRESSIVE] ∧
    (saveEvents (convert env src cfg)).length = 2 ∧
    (env.saveResult src 1 = Except.ok () →
      (convert env src cfg).raised = none) ∧
    (∀ e2, env.saveResult src 1 = Except.error e2 →
      (convert env src cfg).raised = some e2) := by
  by_cases hd : env.destExists (destPath env cfg src) = true
  all_goals
    cases h3 : env.saveResult src 1 with
    | ok u =>
        refine ⟨?_, ?_, ?_, ?_⟩
        · simp [convert, hopen, hsave, hrgba, hd, h3]
        · simp [convert, hopen, hsave, hrgba, hd, h3, saveEvents,
            Event.isSave, List.filter]
        · intro h31
          simp [convert, hopen, hsave, hrgba, hd, h3]
        · intro e2 h32
          exact absurd h32 (by simp)
    | error e2 =>
        refine ⟨?_, ?_, ?_, ?_⟩
        · simp [convert, hopen, hsave, hrgba, hd, h3]
        · simp [convert, hopen, hsave, hrgba, hd, h3, saveEvents,
            Event.isSave, List.filter]
        · intro h31
          exact absurd h31 (by simp)
        · intro e3 h32
          have he : e2 = e3 := by simpa using h32
          subst he
          simp [convert, hopen, hsave, hrgba, hd, h3]

/-- C3 witness: concrete transparency failure whose retry succeeds - the
full trace shape and the normal return. -/
theorem c3_transparency_fallback_witness :
    (convert envC3w "in/a.png" cfgA).events =
      (if envC3w.destExists (destPath envC3w cfgA "in/a.png") then
        [Event.write ("Warning: file " ++ destPath envC3w cfgA "in/a.png"
          ++ " already exists")]
       else [])
      ++ [Event.save ⟨"in/a.png", "RGBA"⟩ (destPath envC3w cfgA "in/a.png")
            (registeredGet envC3w (pathSuffix (destPath envC3w cfgA "in/a.png")))
            cfgA.IMAGE_QUALITY cfgA.OPTIMIZE cfgA.PROGRESSIVE,
          Event.write ("Warning: file " ++ "in/a.png"
            ++ " has a transparency layer, message: "
            ++ "cannot write mode RGBA as JPEG"),
          Event.save (PILImage.convertMode ⟨"in/a.png", "RGBA"⟩ "RGB")
            (destPath envC3w cfgA "in/a.png")
            (registeredGet envC3w (pathSuffix (destPath envC3w cfgA "in/a.png")))
            cfgA.IMAGE_QUALITY cfgA.OPTIMIZE cfgA.PROGRESSIVE] ∧
    (saveEvents (convert envC3w "in/a.png" cfgA)).length = 2 ∧
    (envC3w.saveResult "in/a.png" 1 = Except.ok () →
      (convert envC3w "in/a.png" cfgA).raised = none) ∧
    (∀ e2, envC3w.saveResult "in/a.png" 1 = Except.error e2 →
      (convert envC3w "in/a.png" cfgA).raised = some e2) :=
  c3_transparency_fallback envC3w "in/a.png" cfgA ⟨"in/a.png", "RGBA"⟩
    "cannot write mode RGBA as JPEG" rfl rfl (by decide)

/-- C4: whenever a file already exists at the derived destination path, the
task first writes the already-exists warning and then still performs the
first save attempt - the warning line is immediately followed by the save
call in the trace, on every control path. -/
theorem c4_exists_warning_then_save (env : Env) (src : String) (cfg : Config)
    (img : PILImage)
    (hopen : env.openImage src = Except.ok img)
    (hexists : env.destExists (destPath env cfg src) = true) :
    ∃ rest, (convert env src cfg).events =
      Event.write ("Warning: file " ++ destPath env cfg src
        ++ " already exists")
      :: Event.save img (destPath env cfg src)
           (registeredGet env (pathSuffix (destPath env cfg src)))
           cfg.IMAGE_QUALITY cfg.OPTIMIZE cfg.PROGRESSIVE
      :: rest := by
  cases h2 : env.saveResult src 0 with
  | ok u => exact ⟨[], by simp [convert, hopen, hexists, h2]⟩
  | error ex =>
    cases ex with
    | osError m =>
      by_cases hr : containsRGBA m = true
      · cases h3 : env.saveResult src 1 with
        | ok u =>
            exact ⟨[Event.write ("Warning: file " ++ src
                ++ " has a transparency layer, message: " ++ m),
              Event.save (img.convertMode "RGB") (destPath env cfg src)
                (registeredGet env (pathSuffix (destPath env cfg src)))
                cfg.IMAGE_QUALITY cfg.OPTIMIZE cfg.PROGRESSIVE],
              by simp [convert, hopen, hexists, h2, h3, hr]⟩
        | error e2 =>
            exact ⟨[Event.write ("Warning: file " ++ src
                ++ " has a transparency layer, message: " ++ m),
              Event.save (img.convertMode "RGB") (destPath env cfg src)
                (registeredGet env (pathSuffix (destPath env cfg src)))
                cfg.IMAGE_QUALITY cfg.OPTIMIZE cfg.PROGRESSIVE],
              by simp [convert, hopen, hexists, h2, h3, hr]⟩
      · cases h3 : env.saveResult src 1 with
        | ok u =>
            exact ⟨[Event.save img (destPath env cfg src)
                (registeredGet env (pathSuffix (destPath env cfg src)))
                cfg.IMAGE_QUALITY cfg.OPTIMIZE cfg.PROGRESSIVE],
              by simp [convert, hopen, hexists, h2, h3, hr]⟩
        | error e2 =>
            exact ⟨[Event.save img (destPath env cfg src)
                (registeredGet env (pathSuffix (destPath env cfg src)))
                cfg.IMAGE_QUALITY cfg.OPTIMIZE cfg.PROGRESSIVE],
              by simp [convert, hopen, hexists, h2, h3, hr]⟩
    | otherError m =>
        exact ⟨[Event.write ("Error: file: " ++ src ++ ", message: " ++ m)],
          by simp [convert, hopen, hexists, h2]⟩

/-- C4 witness: a concrete run with a pre-existing destination file shows
the warning line followed by the save call. -/
theorem c4_exists_warning_then_save_witness :
    ∃ rest, (convert envA "in/a.png" cfgA).events =
      Event.write ("Warning: file " ++ destPath envA cfgA "in/a.png"
        ++ " already exists")
      :: Event.save ⟨"in/a.png", "RGBA"⟩ (destPath envA cfgA "in/a.png")
           (registeredGet envA (pathSuffix (destPath envA cfgA "in/a.png")))
           cfgA.IMAGE_QUALITY cfgA.OPTIMIZE cfgA.PROGRESSIVE
      :: rest :=
  c4_exists_warning_then_save envA "in/a.png" cfgA ⟨"in/a.png", "RGBA"⟩ rfl rfl

/-- C5: the destination path is the pure function of the source file and the
configuration given by joining the absolutized destination folder with the
source stem and the configured destination extension; every save a task
performs targets exactly this path; and the path is flat - it does not
depend on the directory part of the source path before the last separator,
so the subdirectory structure of recursively discovered sources is not
mirrored. -/
theorem c5_dest_path_flat_pure (env : Env) (cfg : Config) :
    (∀ src img d f q o p, Event.save img d f q o p ∈ (convert env src cfg).events →
        d = destPath env cfg src) ∧
    (∀ src, destPath env cfg src =
        env.absolutize cfg.DESTINATION_FOLDER ++ "/" ++ pathStem src
          ++ cfg.DESTINATION_FILE_TYPE) ∧
    (∀ d1 d2 n, destPath env cfg (d1 ++ "/" ++ n) =
        destPath env cfg (d2 ++ "/" ++ n)) := by
  refine ⟨?_, fun _ => rfl, ?_⟩
  · intro src img d f q o p hmem
    exact (convert_save_mem env src cfg img d f q o p hmem).1
  · intro d1 d2 n
    unfold destPath
    rw [pathStem_append_slash, pathStem_append_slash]

/-- C5 witness: the save in a concrete run targets the derived path, and two
sources with the same name in different directories map to the same
destination. -/
theorem c5_dest_path_flat_pure_witness :
    ("/abs/out/a.jpg" : String) = destPath envA cfgA "in/a.png" ∧
    destPath envA cfgA ("x" ++ "/" ++ "a.png") =
      destPath envA cfgA ("y" ++ "/" ++ "a.png") :=
  ⟨(c5_dest_path_flat_pure envA cfgA).1 "in/a.png" ⟨"in/a.png", "RGBA"⟩
      "/abs/out/a.jpg" (some "JPEG") 80 true true (by decide),
   (c5_dest_path_flat_pure envA cfgA).2.2 "x" "y" "a.png"⟩

/-- C6: whenever the normalized destination extension is not a registered
extension, `check_config` raises a SystemExit (modelled as an error result,
exit status 1) and the main block dispatches zero conversion tasks. -/
theorem c6_unsupported_dest_aborts (env : Env) (cfg : Config)
    (h : (registeredKeys env).contains
      (normalizeExt cfg.DESTINATION_FILE_TYPE) = false) :
    (∃ msg, check_config env cfg = Except.error msg) ∧
    (mainModel env cfg).exitCode = 1 ∧
    (mainModel env cfg).taskResults = [] ∧
    (mainModel env cfg).doneLine = false := by
  cases hcc : check_config env cfg with
  | error msg =>
      exact ⟨⟨msg, rfl⟩, by simp [mainModel, hcc], by simp [mainModel, hcc],
        by simp [mainModel, hcc]⟩
  | ok cfg2 =>
      have h2 := (check_config_ok_shape env cfg cfg2 hcc).2.1
      simp at h h2
      exact absurd h2 h

/-- C6 witness: a concrete configuration asking for the unregistered
extension .xyz aborts with exit status 1 and no tasks. -/
theorem c6_unsupported_dest_aborts_witness :
    (∃ msg, check_config envA cfgXyz = Except.error msg) ∧
    (mainModel envA cfgXyz).exitCode = 1 ∧
    (mainModel envA cfgXyz).taskResults = [] ∧
    (mainModel envA cfgXyz).doneLine = false :=
  c6_unsupported_dest_aborts envA cfgXyz (by decide)

/-- C7: extension normalization is idempotent - a dot is prepended exactly
when missing, a string that already starts with a dot is left unchanged, the
example gif normalizes to .gif - and a successful `check_config` returns the
configuration whose two extension fields are normalized (so discovery in the
main block runs on the normalized extension). -/
theorem c7_normalization_idempotent :
    (∀ s, normalizeExt (normalizeExt s) = normalizeExt s) ∧
    (∀ s, startsWithDot s = true → normalizeExt s = s) ∧
    normalizeExt "gif" = ".gif" ∧
    (∀ env cfg cfg2, check_config env cfg = Except.ok cfg2 →
      cfg2.SOURCE_FILE_TYPE = normalizeExt cfg.SOURCE_FILE_TYPE ∧
      cfg2.DESTINATION_FILE_TYPE = normalizeExt cfg.DESTINATION_FILE_TYPE) := by
  refine ⟨normalizeExt_idem, ?_, by decide, ?_⟩
  · intro s hs
    simp [normalizeExt, hs]
  · intro env cfg cfg2 h
    have hshape := (check_config_ok_shape env cfg cfg2 h).1
    subst hshape
    exact ⟨rfl, rfl⟩

/-- C7 witness: idempotence and the normalized fields of a concrete
successful validation. -/
theorem c7_normalization_idempotent_witness :
    normalizeExt ".gif" = ".gif" ∧
    cfgA.SOURCE_FILE_TYPE = normalizeExt cfgA.SOURCE_FILE_TYPE ∧
    cfgA.DESTINATION_FILE_TYPE = normalizeExt cfgA.DESTINATION_FILE_TYPE :=
  ⟨c7_normalization_idempotent.2.1 ".gif" (by decide),
   (c7_normalization_idempotent.2.2.2 envA cfgA cfgA rfl).1,
   (c7_normalization_idempotent.2.2.2 envA cfgA cfgA rfl).2⟩

/-- C8 counterexample: the claim says the CLI accepts an option quality
taking an integer value; but line 70 registers it with action store_const
(which consumes no token), so the table entry is store_const 80 and parsing
a following integer token fails instead of populating quality with it. -/
theorem c8_quality_takes_no_value :
    optionActions.lookup "--quality" = some (ArgAction.storeConst 80) ∧
    consumesValue (ArgAction.storeConst 80) = false ∧
    parseOptionTokens ["--quality", "50"] (defaultOptions 8) =
      Except.error ("unrecognized arguments: 50") :=
  ⟨rfl, rfl, rfl⟩

/-- C8 amended: the quality option is a flag that takes no value (action
store_const with constant 80, equal to the default 80), so every successful
parse yields quality 80; and the conversion task does pass the configured
IMAGE_QUALITY as the quality of every save call it makes. -/
theorem c8_quality_const_80 :
    (∀ toks cpu r, parseOptionTokens toks (defaultOptions cpu) = Except.ok r →
      r.quality = 80) ∧
    (∀ env src cfg img d f q o p,
      Event.save img d f q o p ∈ (convert env src cfg).events →
      q = cfg.IMAGE_QUALITY) := by
  constructor
  · intro toks cpu r h
    rcases parseOptionTokens_quality toks (defaultOptions cpu) r h with h' | h'
    · simpa [defaultOptions] using h'
    · exact h'
  · intro env src cfg img d f q o p hmem
    exact (convert_save_mem env src cfg img d f q o p hmem).2.2.1

/-- C8 witness: the flag alone parses and yields quality 80, and a concrete
save call uses the configured quality. -/
theorem c8_quality_const_80_witness :
    (defaultOptions 8).quality = 80 ∧ (80 : Nat) = cfgA.IMAGE_QUALITY :=
  ⟨c8_quality_const_80.1 ["--quality"] 8 (defaultOptions 8) rfl,
   c8_quality_const_80.2 envA "in/a.png" cfgA ⟨"in/a.png", "RGBA"⟩
     "/abs/out/a.jpg" (some "JPEG") 80 true true (by decide)⟩

/-- C10: after a successful validation the main block converts every
discovered file, stores each raw task result (including any escaped
exception, which stays inside its result and is never re-raised because the
futures are iterated without calling result), prints the Done line and exits
with status 0, regardless of what the individual tasks did. -/
theorem c10_task_exceptions_never_reraised (env : Env) (cfg cfg2 : Config)
    (h : check_config env cfg = Except.ok cfg2) :
    (mainModel env cfg).exitCode = 0 ∧
    (mainModel env cfg).doneLine = true ∧
    (mainModel env cfg).taskResults =
      (allFiles env cfg2).map (fun f => convert env f cfg2) ∧
    (mainModel env cfg).taskResults.length = (allFiles env cfg2).length := by
  refine ⟨?_, ?_, ?_, ?_⟩ <;> simp [mainModel, h]

/-- C10 witness: a concrete run in which every task raises on open still
processes all files, prints Done and exits 0, with each raised exception
stored in its task result. -/
theorem c10_task_exceptions_never_reraised_witness :
    ((mainModel envCrash cfgA).exitCode = 0 ∧
     (mainModel envCrash cfgA).doneLine = true ∧
     (mainModel envCrash cfgA).taskResults =
       (allFiles envCrash cfgA).map (fun f => convert envCrash f cfgA) ∧
     (mainModel envCrash cfgA).taskResults.length =
       (allFiles envCrash cfgA).length) ∧
    (mainModel envCrash cfgA).taskResults.all
      (fun r => r.raised == some (PyExc.osError "boom")) = true :=
  ⟨c10_task_exceptions_never_reraised envCrash cfgA cfgA rfl, by decide⟩

end PyImgConv
